import Mathlib

/-!
# ShellPilot — verification of the specified safety-arbitration engine

The repository ships a static two-pane UI mockup (`src/frontend/src/app/page.tsx`)
and a README describing the planned engine.  The Command Model, Risk Classifier,
Confirmation Gate and Session Ledger are specified in the design document but not
yet present under `src/`, so those components are modelled here from the spec's
words; the `Home` component of `page.tsx` is embedded directly from the source.
-/

namespace ShellPilot

/-- Risk tiers assigned by the Risk Classifier (§3, §4.2). -/
inductive RiskTier where
  | Safe
  | Caution
  | Dangerous
  | Blocked
deriving DecidableEq, Repr

/-- Numeric severity of a tier; used to take maxima across chained statements. -/
def tierVal : RiskTier → Nat
  | .Safe => 0
  | .Caution => 1
  | .Dangerous => 2
  | .Blocked => 3

/-- The more severe of two tiers (§4.2: highest tier wins overall). -/
def tierMax (a b : RiskTier) : RiskTier :=
  if tierVal b ≤ tierVal a then a else b

/-- Modelled from the spec: splitting of a raw command string into chained
statements at `;`, `&&` and `|` (§4.2); the Risk Classifier source is not in
the repository.  Returns the first statement and the remaining ones, so a
command always has at least one statement. -/
def splitStmtsAux : List Char → List Char → String × List String
  | [], acc => (String.mk acc.reverse, [])
  | '&' :: '&' :: rest, acc =>
    let r := splitStmtsAux rest []
    (String.mk acc.reverse, r.1 :: r.2)
  | ';' :: rest, acc =>
    let r := splitStmtsAux rest []
    (String.mk acc.reverse, r.1 :: r.2)
  | '|' :: rest, acc =>
    let r := splitStmtsAux rest []
    (String.mk acc.reverse, r.1 :: r.2)
  | c :: rest, acc => splitStmtsAux rest (c :: acc)

/-- Statements of a raw command, in order (§4.2). -/
def splitStatements (raw : String) : List String :=
  (splitStmtsAux raw.data []).1 :: (splitStmtsAux raw.data []).2

/-- Modelled from the spec: whitespace tokenization of one statement into the
invoked program plus arguments (§4.2, structural matching). -/
def wordsAux : List Char → List Char → List String
  | [], [] => []
  | [], acc => [String.mk acc.reverse]
  | c :: rest, acc =>
    if c = ' ' then
      match acc with
      | [] => wordsAux rest []
      | _ => String.mk acc.reverse :: wordsAux rest []
    else wordsAux rest (c :: acc)

/-- Tokens of one statement. -/
def tokenize (s : String) : List String :=
  wordsAux s.data []

/-- `startsWithChars cs pat` holds when `pat` is an initial run of `cs`. -/
def startsWithChars : List Char → List Char → Bool
  | _, [] => true
  | [], _ :: _ => false
  | c :: cs, p :: ps => c = p && startsWithChars cs ps

/-- Modelled from the spec: the Blocked-pattern layer (§4.2 layer 1) —
recursive deletion of filesystem roots, direct writes to block devices,
disabling the audit subsystem, and a bare shell as a pipe target; the exact
list is a policy choice (§9) and the classifier source is not in the
repository. -/
def matchesBlocked : List String → Bool
  | [] => false
  | prog :: args =>
    (prog = "rm" &&
      (args.contains "-rf" || args.contains "-fr" ||
        (args.contains "-r" && args.contains "-f")) &&
      args.contains "/")
    || (prog = "dd" && args.any (fun a => startsWithChars a.data "of=/dev/".data))
    || (prog = "systemctl" && args.contains "stop" && args.contains "auditd")
    || ((prog = "sh" || prog = "bash") && args = [])

/-- Modelled from the spec: the Dangerous-pattern layer (§4.2 layer 2) —
privilege escalation, user/group and service management, firewall changes,
package removal, filesystem formatting. -/
def matchesDangerous : List String → Bool
  | [] => false
  | prog :: args =>
    prog = "sudo" || prog = "su"
    || prog = "useradd" || prog = "userdel" || prog = "usermod"
    || prog = "groupadd" || prog = "groupdel"
    || prog = "iptables" || prog = "ufw"
    || prog = "mkfs" || startsWithChars prog.data "mkfs.".data
    || (prog = "systemctl" && (args.contains "stop" || args.contains "disable"))
    || ((prog = "apt" || prog = "apt-get" || prog = "yum" || prog = "dnf") &&
        (args.contains "remove" || args.contains "purge"))

/-- Modelled from the spec: the Caution-pattern layer (§4.2 layer 3) —
package installation and service restarts. -/
def matchesCaution : List String → Bool
  | [] => false
  | prog :: args =>
    ((prog = "apt" || prog = "apt-get" || prog = "yum" || prog = "dnf" ||
      prog = "pip") && args.contains "install")
    || (prog = "systemctl" && (args.contains "restart" || args.contains "start"))

/-- Modelled from the spec: tier of a single statement, evaluating the layers
Blocked → Dangerous → Caution in that fixed order, defaulting to Safe (§4.2). -/
def classifyStmt (stmt : String) : RiskTier :=
  let toks := tokenize stmt
  if matchesBlocked toks then .Blocked
  else if matchesDangerous toks then .Dangerous
  else if matchesCaution toks then .Caution
  else .Safe

/-- Modelled from the spec: `classify(command) -> riskTier`, a pure function of
`rawText`; chained statements are classified independently and the maximum
tier across all statements is returned (§4.2). -/
def classify (raw : String) : RiskTier :=
  ((splitStatements raw).map classifyStmt).foldl tierMax .Safe

/-- Lifecycle states of a command (§3). -/
inductive Status where
  | Proposed
  | AwaitingConfirmation
  | Approved
  | Rejected
  | Executing
  | Completed
  | Failed
  | Cancelled
deriving DecidableEq, Repr

/-- Operator inputs visible to the Confirmation Gate while a command awaits a
decision (§4.4): approval, decline, or the confirmation timeout elapsing. -/
inductive OpInput where
  | approve
  | decline
  | timeout
deriving DecidableEq, Repr

/-- Modelled from the spec: the Confirmation Gate's automatic transition out of
`Proposed` once the risk tier is known (§4.4): Safe auto-approves, Caution and
Dangerous await confirmation, Blocked is rejected with no approval possible;
the Confirmation Gate source is not in the repository. -/
def gateInit : RiskTier → Status
  | .Safe => .Approved
  | .Caution => .AwaitingConfirmation
  | .Dangerous => .AwaitingConfirmation
  | .Blocked => .Rejected

/-- Modelled from the spec: one step of the Confirmation Gate state machine on
an operator input (§4.4).  Only `AwaitingConfirmation` reacts to input;
`Approved` and `Rejected` are terminal and absorb every input. -/
def gateStep (s : Status) (i : OpInput) : Status :=
  match s with
  | .AwaitingConfirmation =>
    match i with
    | .approve => .Approved
    | .decline => .Rejected
    | .timeout => .Rejected
  | _ => s

/-- The gate's status after classification and an arbitrary sequence of
operator inputs. -/
def gateRun (tier : RiskTier) (inputs : List OpInput) : Status :=
  inputs.foldl gateStep (gateInit tier)

/-- Engine error taxonomy (§7). -/
inductive EngineError where
  | InvalidCommand
  | ProviderUnavailable
  | ProviderTimeout
  | MalformedResponse
  | ExecutionTimeout
  | ExecutionCancelled
  | SpawnFailure
  | LedgerWriteFailure
deriving DecidableEq, Repr

/-- Configuration of the Command Model (§4.1): the maximum accepted length of
`rawText`. -/
structure CommandConfig where
  maxLength : Nat
deriving DecidableEq, Repr

/-- Command Model (§3): typed representation of a proposed shell operation.
`riskTier` is unset until the Risk Classifier runs; execution outputs are
unset until execution completes. -/
structure Command where
  id : Nat
  rawText : String
  intentSummary : String
  riskTier : Option RiskTier
  status : Status
  exitCode : Option Int
  stdout : Option String
  stderr : Option String
deriving DecidableEq, Repr

/-- Modelled from the spec: Command Model construction (§4.1) — pure
validation with no side effects, failing with `InvalidCommand` when `rawText`
is empty or exceeds the configured maximum length; the Command Model source is
not in the repository. -/
def mkCommand (cfg : CommandConfig) (id : Nat) (rawText intentSummary : String) :
    Except EngineError Command :=
  if rawText = "" ∨ cfg.maxLength < rawText.length then
    .error .InvalidCommand
  else
    .ok { id := id, rawText := rawText, intentSummary := intentSummary,
          riskTier := none, status := .Proposed,
          exitCode := none, stdout := none, stderr := none }

/-- A Session Ledger entry (§3): one Command Model snapshot per lifecycle
transition, together with the recorded reason for terminal statuses (§7). -/
structure LedgerEntry where
  snapshot : Command
  reason : Option String
deriving DecidableEq, Repr

/-- Session Ledger (§4.6): ordered sequence of entries. -/
structure Ledger where
  entries : List LedgerEntry
deriving DecidableEq, Repr

/-- Modelled from the spec: `record(entry)` appends one entry at the end of the
ledger (§4.6, append-only); the Session Ledger source is not in the
repository. -/
def Ledger.record (l : Ledger) (e : LedgerEntry) : Ledger :=
  { entries := l.entries ++ [e] }

/-- `history()` (§4.6): the ordered sequence of entries. -/
def Ledger.history (l : Ledger) : List LedgerEntry :=
  l.entries

/-- The operations a session may perform on the ledger within its lifetime:
the ledger's only mutator is `record` (§4.6). -/
inductive LedgerOp where
  | record (e : LedgerEntry)

/-- Apply one ledger operation. -/
def applyLedgerOp (l : Ledger) : LedgerOp → Ledger
  | .record e => l.record e

/-- Apply a sequence of ledger operations in order. -/
def applyLedgerOps (l : Ledger) (ops : List LedgerOp) : Ledger :=
  ops.foldl applyLedgerOp l

/-- A rendered markup node: either a text node or an element with a tag,
attributes, and children.  Embeds the JSX trees of `page.tsx`. -/
inductive Node where
  | text : String → Node
  | elem : String → List (String × String) → List Node → Node

mutual

/-- All text-node contents of a markup tree, in document order. -/
def textsOf : Node → List String
  | .text s => [s]
  | .elem _ _ cs => textsOfList cs

/-- All text-node contents of a list of markup trees. -/
def textsOfList : List Node → List String
  | [] => []
  | n :: ns => textsOf n ++ textsOfList ns

end

mutual

/-- A markup tree is static when it contains no script element and no
event-handler attribute (no attribute whose key starts with `on`). -/
def staticMarkup : Node → Bool
  | .text _ => true
  | .elem tag attrs cs =>
    tag ≠ "script" &&
    attrs.all (fun a => !(startsWithChars a.fst.data "on".data)) &&
    staticMarkupList cs

/-- `staticMarkup` over a list of children. -/
def staticMarkupList : List Node → Bool
  | [] => true
  | n :: ns => staticMarkup n && staticMarkupList ns

end

/-- The fixed markup returned by `Home` in `src/frontend/src/app/page.tsx`
(lines 5–133), transcribed node for node: tags, `className`/`type`/
`placeholder` attributes, and text content.  The four icon components imported
from `lucide-react` appear as elements named after the component. -/
def homeMarkup : Node :=
  .elem "div" [("className", "min-h-screen bg-slate-950 text-slate-100")] [
    .elem "header" [("className", "border-b border-slate-800 bg-slate-900 px-6 py-4")] [
      .elem "div" [("className", "flex items-center justify-between")] [
        .elem "div" [("className", "flex items-center space-x-3")] [
          .elem "div" [("className", "text-2xl")] [.text "🚁"],
          .elem "h1" [("className", "text-xl font-bold")] [.text "ShellPilot"]],
        .elem "div" [("className", "flex items-center space-x-4")] [
          .elem "div" [("className", "flex items-center space-x-2 text-sm text-slate-400")] [
            .elem "div" [("className", "h-2 w-2 rounded-full bg-green-500")] [],
            .elem "span" [] [.text "Connected"]],
          .elem "button" [("className", "rounded-md border border-slate-700 p-2 hover:bg-slate-800")] [
            .elem "Settings" [("className", "h-4 w-4")] []]]]],
    .elem "div" [("className", "flex h-[calc(100vh-73px)]")] [
      .elem "div" [("className", "flex-1 border-r border-slate-800 bg-slate-900")] [
        .elem "div" [("className", "flex h-full flex-col")] [
          .elem "div" [("className", "border-b border-slate-800 px-4 py-3")] [
            .elem "div" [("className", "flex items-center justify-between")] [
              .elem "div" [("className", "flex items-center space-x-2")] [
                .elem "Terminal" [("className", "h-4 w-4 text-slate-400")] [],
                .elem "span" [("className", "text-sm font-medium")] [.text "Terminal"]],
              .elem "div" [("className", "flex items-center space-x-2 text-xs text-slate-500")] [
                .elem "Activity" [("className", "h-3 w-3")] [],
                .elem "span" [] [.text "Session: 0m • Commands: 0"]]]],
          .elem "div" [("className", "flex-1 p-4")] [
            .elem "div" [("className", "h-full rounded-lg bg-slate-950 p-4 font-mono text-sm")] [
              .elem "div" [("className", "mb-2 text-slate-300")] [.text "Welcome to ShellPilot Terminal"],
              .elem "div" [("className", "mb-4 text-xs text-slate-500")] [
                .text "AI-powered Linux system administration"],
              .elem "div" [("className", "flex items-center text-slate-300")] [
                .elem "span" [("className", "text-green-400")] [.text "raghav@shellpilot"],
                .elem "span" [("className", "text-slate-500")] [.text ":"],
                .elem "span" [("className", "text-blue-400")] [.text "~"],
                .elem "span" [("className", "text-slate-500")] [.text "$ "],
                .elem "span" [("className", "ml-1 animate-pulse")] [.text "_"]]]]]],
      .elem "div" [("className", "w-96 bg-slate-900")] [
        .elem "div" [("className", "flex h-full flex-col")] [
          .elem "div" [("className", "border-b border-slate-800 px-4 py-3")] [
            .elem "div" [("className", "flex items-center justify-between")] [
              .elem "div" [("className", "flex items-center space-x-2")] [
                .elem "MessageCircle" [("className", "h-4 w-4 text-slate-400")] [],
                .elem "span" [("className", "text-sm font-medium")] [.text "AI Assistant"]],
              .elem "div" [("className", "text-xs text-slate-500")] [.text "DeepSeek R1"]]],
          .elem "div" [("className", "flex-1 p-4")] [
            .elem "div" [("className", "flex h-full flex-col space-y-4")] [
              .elem "div" [("className", "rounded-lg bg-slate-800 p-3 text-sm")] [
                .elem "div" [("className", "mb-1 font-medium text-blue-400")] [.text "🤖 ShellPilot AI"],
                .elem "div" [("className", "text-slate-300")] [
                  .text "Hello! I\x27m your AI Linux assistant. What would you like to do today?"]],
              .elem "div" [("className", "space-y-2")] [
                .elem "div" [("className", "text-xs font-medium text-slate-400")] [.text "Quick Actions"],
                .elem "div" [("className", "space-y-1")] [
                  .elem "button" [("className", "w-full rounded-md bg-slate-800 px-3 py-2 text-left text-xs hover:bg-slate-700")] [
                    .text "Check system performance"],
                  .elem "button" [("className", "w-full rounded-md bg-slate-800 px-3 py-2 text-left text-xs hover:bg-slate-700")] [
                    .text "Install development tools"],
                  .elem "button" [("className", "w-full rounded-md bg-slate-800 px-3 py-2 text-left text-xs hover:bg-slate-700")] [
                    .text "Set up web server"]]],
              .elem "div" [("className", "flex-1")] [],
              .elem "div" [("className", "space-y-2")] [
                .elem "input" [("type", "text"), ("placeholder", "Type your request here..."),
                  ("className", "w-full rounded-md bg-slate-800 border border-slate-700 px-3 py-2 text-sm placeholder-slate-500 focus:border-slate-600 focus:outline-none")] [],
                .elem "div" [("className", "flex space-x-2")] [
                  .elem "button" [("className", "flex-1 rounded-md bg-blue-600 px-3 py-2 text-sm font-medium hover:bg-blue-700")] [
                    .text "Send"],
                  .elem "button" [("className", "rounded-md border border-slate-700 px-3 py-2 text-sm hover:bg-slate-800")] [
                    .text "Workflow"]]]]]]]]]

/-- The exported `Home` component of `src/frontend/src/app/page.tsx`: a
function of no props returning the fixed markup tree.  Invocation is modelled
by application to `()`. -/
def Home : Unit → Node :=
  fun _ => homeMarkup

/-! ## Helper lemmas -/

theorem tierMax_choice (a b : RiskTier) : tierMax a b = a ∨ tierMax a b = b := by
  unfold tierMax
  split
  · exact Or.inl rfl
  · exact Or.inr rfl

theorem le_tierMax_left (a b : RiskTier) : tierVal a ≤ tierVal (tierMax a b) := by
  cases a <;> cases b <;> decide

theorem le_tierMax_right (a b : RiskTier) : tierVal b ≤ tierVal (tierMax a b) := by
  cases a <;> cases b <;> decide

theorem foldl_tierMax_init_le (l : List RiskTier) :
    ∀ init, tierVal init ≤ tierVal (l.foldl tierMax init) := by
  induction l with
  | nil => intro init; exact le_refl _
  | cons a t ih =>
    intro init
    exact le_trans (le_tierMax_left init a) (ih (tierMax init a))

theorem foldl_tierMax_upper (l : List RiskTier) :
    ∀ init x, x ∈ l → tierVal x ≤ tierVal (l.foldl tierMax init) := by
  induction l with
  | nil => intro init x hx; cases hx
  | cons a t ih =>
    intro init x hx
    rcases List.mem_cons.mp hx with h | h
    · subst h
      exact le_trans (le_tierMax_right init x) (foldl_tierMax_init_le t (tierMax init x))
    · exact ih (tierMax init a) x h

theorem foldl_tierMax_attained (l : List RiskTier) :
    ∀ init, l.foldl tierMax init = init ∨ ∃ x, x ∈ l ∧ l.foldl tierMax init = x := by
  induction l with
  | nil => intro init; exact Or.inl rfl
  | cons a t ih =>
    intro init
    rcases ih (tierMax init a) with h | ⟨x, hx, he⟩
    · rcases tierMax_choice init a with hm | hm
      · exact Or.inl (by rw [List.foldl_cons, h, hm])
      · exact Or.inr ⟨a, List.mem_cons_self a t, by rw [List.foldl_cons, h, hm]⟩
    · exact Or.inr ⟨x, List.mem_cons_of_mem a hx, by rw [List.foldl_cons]; exact he⟩

theorem blocked_of_le (t : RiskTier) :
    tierVal RiskTier.Blocked ≤ tierVal t → t = RiskTier.Blocked := by
  cases t <;> decide

theorem safe_of_le (t : RiskTier) :
    tierVal t ≤ tierVal RiskTier.Safe → t = RiskTier.Safe := by
  cases t <;> decide

theorem splitStatements_ne_nil (raw : String) : splitStatements raw ≠ [] :=
  List.cons_ne_nil _ _

theorem rejected_absorbs (inputs : List OpInput) :
    List.foldl gateStep Status.Rejected inputs = Status.Rejected := by
  induction inputs with
  | nil => rfl
  | cons i t ih => exact ih

/-! ## Claim theorems -/

/-- Claim C1: every command one of whose statements matches a Blocked pattern
is classified `Blocked`, and a `Blocked` command can never reach `Approved` in
the Confirmation Gate, regardless of any sequence of operator inputs. -/
theorem blocked_never_approved (raw : String)
    (h : (splitStatements raw).any (fun s => matchesBlocked (tokenize s)) = true) :
    classify raw = RiskTier.Blocked ∧
      ∀ inputs : List OpInput, gateRun (classify raw) inputs ≠ Status.Approved := by
  have hb : classify raw = RiskTier.Blocked := by
    rcases List.any_eq_true.mp h with ⟨s, hs, hmatch⟩
    have hcs : classifyStmt s = RiskTier.Blocked := by
      simp [classifyStmt, hmatch]
    have hmem : RiskTier.Blocked ∈ (splitStatements raw).map classifyStmt :=
      List.mem_map.mpr ⟨s, hs, hcs⟩
    have hle := foldl_tierMax_upper _ RiskTier.Safe _ hmem
    exact blocked_of_le _ hle
  refine ⟨hb, ?_⟩
  intro inputs
  rw [hb]
  show List.foldl gateStep (gateInit RiskTier.Blocked) inputs ≠ Status.Approved
  rw [show gateInit RiskTier.Blocked = Status.Rejected from rfl, rejected_absorbs]
  decide

/-- Witness for C1 at the concrete input `"rm -rf /"`. -/
theorem blocked_never_approved_witness :
    ((splitStatements "rm -rf /").any (fun s => matchesBlocked (tokenize s)) = true) ∧
      (classify "rm -rf /" = RiskTier.Blocked ∧
        ∀ inputs : List OpInput,
          gateRun (classify "rm -rf /") inputs ≠ Status.Approved) :=
  ⟨by decide, blocked_never_approved "rm -rf /" (by decide)⟩

/-- Claim C3: `classify` returns the maximum tier across all chained
statements — every statement's tier is bounded by the overall tier and the
overall tier is attained by some statement — and in particular
`classify "ls; rm -rf /" = Blocked` while `classify "ls" = Safe`. -/
theorem classify_max_over_statements (raw : String) :
    (∀ s ∈ splitStatements raw, tierVal (classifyStmt s) ≤ tierVal (classify raw)) ∧
      (∃ s ∈ splitStatements raw, classify raw = classifyStmt s) ∧
      classify "ls; rm -rf /" = RiskTier.Blocked ∧
      classify "ls" = RiskTier.Safe := by
  refine ⟨?_, ?_, by decide, by decide⟩
  · intro s hs
    exact foldl_tierMax_upper _ RiskTier.Safe _ (List.mem_map.mpr ⟨s, hs, rfl⟩)
  · rcases foldl_tierMax_attained ((splitStatements raw).map classifyStmt)
      RiskTier.Safe with h | ⟨x, hx, he⟩
    · cases hsp : splitStatements raw with
      | nil => exact absurd hsp (splitStatements_ne_nil raw)
      | cons s0 t =>
        refine ⟨s0, List.mem_cons_self s0 t, ?_⟩
        have hmem : classifyStmt s0 ∈ (splitStatements raw).map classifyStmt := by
          rw [hsp]
          exact List.mem_map.mpr ⟨s0, List.mem_cons_self s0 t, rfl⟩
        have hle := foldl_tierMax_upper _ RiskTier.Safe _ hmem
        rw [h] at hle
        have hcl : classify raw = RiskTier.Safe := h
        rw [hcl]
        exact (safe_of_le _ hle).symm
    · rcases List.mem_map.mp hx with ⟨s, hs, rfl⟩
      exact ⟨s, hs, he⟩

/-- Claim C4: a command classified `Safe` moves from `Proposed` straight to
`Approved` by the gate's automatic transition, with no operator input. -/
theorem safe_auto_approved (raw : String) (h : classify raw = RiskTier.Safe) :
    gateInit (classify raw) = Status.Approved := by
  rw [h]
  rfl

/-- Witness for C4 at the concrete input `"ls"`. -/
theorem safe_auto_approved_witness :
    classify "ls" = RiskTier.Safe ∧ gateInit (classify "ls") = Status.Approved :=
  ⟨by decide, safe_auto_approved "ls" (by decide)⟩

/-- Claim C5: from `AwaitingConfirmation`, the confirmation timeout moves the
command to `Rejected`, and from there no sequence of further operator inputs
ever reaches `Approved`. -/
theorem timeout_rejected_never_approved :
    gateStep Status.AwaitingConfirmation OpInput.timeout = Status.Rejected ∧
      ∀ inputs : List OpInput,
        List.foldl gateStep (gateStep Status.AwaitingConfirmation OpInput.timeout)
          inputs ≠ Status.Approved := by
  refine ⟨rfl, ?_⟩
  intro inputs
  show List.foldl gateStep Status.Rejected inputs ≠ Status.Approved
  rw [rejected_absorbs]
  decide

/-- Claim C6: `classify` is a pure, deterministic function of `rawText` — in
this embedding it is a total function on strings, so classifying the same
`rawText` twice always yields the same tier. -/
theorem classify_deterministic (raw : String) : classify raw = classify raw := rfl

/-- Claim C7: `mkCommand` fails with `InvalidCommand` exactly when `rawText`
is empty or longer than the configured maximum, and otherwise returns the
validated command; it is a pure function, so construction has no side
effects. -/
theorem mkCommand_invalid_iff (cfg : CommandConfig) (id : Nat)
    (raw summary : String) :
    (mkCommand cfg id raw summary = Except.error EngineError.InvalidCommand ↔
      raw = "" ∨ cfg.maxLength < raw.length) ∧
      (¬(raw = "" ∨ cfg.maxLength < raw.length) →
        mkCommand cfg id raw summary =
          Except.ok
            { id := id, rawText := raw, intentSummary := summary,
              riskTier := none, status := Status.Proposed,
              exitCode := none, stdout := none, stderr := none }) := by
  by_cases hc : raw = "" ∨ cfg.maxLength < raw.length
  · simp [mkCommand, hc]
  · simp [mkCommand, hc]

/-- Claim C8: across every sequence of ledger operations, the ledger's entry
sequence is append-only — its length is non-decreasing and the prior entries
remain an unchanged initial segment of the new history. -/
theorem ledger_append_only (l : Ledger) (ops : List LedgerOp) :
    l.history.length ≤ (applyLedgerOps l ops).history.length ∧
      ∃ t, (applyLedgerOps l ops).history = l.history ++ t := by
  induction ops generalizing l with
  | nil => exact ⟨le_refl _, [], by simp [applyLedgerOps, Ledger.history]⟩
  | cons op rest ih =>
    cases op with
    | record e =>
      rcases ih (l.record e) with ⟨hlen, tail, htail⟩
      constructor
      · have hstep : l.history.length ≤ (l.record e).history.length := by
          simp [Ledger.record, Ledger.history]
        exact le_trans hstep hlen
      · refine ⟨e :: tail, ?_⟩
        show (applyLedgerOps (l.record e) rest).history = l.history ++ e :: tail
        rw [htail]
        simp [Ledger.record, Ledger.history]

/-- Claim C2: the `Home` component of `page.tsx` returns the fixed markup tree
`homeMarkup` on every invocation, and that markup is purely static — it holds
no script element and no event-handler attribute, so the component interprets
no commands, executes nothing, and calls no LLM. -/
theorem home_static_fixed_markup (u : Unit) :
    Home u = homeMarkup ∧ staticMarkup (Home u) = true := by
  refine ⟨rfl, ?_⟩
  show staticMarkup homeMarkup = true
  decide

/-- Claim C9: `Home` takes no props and reads no state, so any two
invocations return structurally identical element trees. -/
theorem home_deterministic (u v : Unit) : Home u = Home v := rfl

/-- Claim C10: the connection indicator `"Connected"` and the counters
`"Session: 0m • Commands: 0"` are hard-coded text nodes of `Home`'s output on
every invocation, independent of any actual connection or command state. -/
theorem home_hardcoded_indicators (u : Unit) :
    "Connected" ∈ textsOf (Home u) ∧
      "Session: 0m • Commands: 0" ∈ textsOf (Home u) := by
  constructor
  · show "Connected" ∈ textsOf homeMarkup
    decide
  · show "Session: 0m • Commands: 0" ∈ textsOf homeMarkup
    decide

end ShellPilot
